import Mathlib

/-!
Shallow embedding of the smstrap (telnyx-mock) outbound message lifecycle:
request validation (`internal/validator`), credential checking
(`internal/database.ValidateCredential`), the outbound create handler
(`internal/server.HandleCreateMessage`), the inbound webhook handler
(`internal/server.HandleInboundWebhook`), and the delayed status-callback
dispatcher (`internal/webhook.SendStatusCallbacks` / `sendWebhook`).

Modelling conventions:
* Go strings are modelled as Lean `String`.  The Go code slices
  `authHeader[:7]` by bytes; since the compared prefixes ("Bearer ",
  "Basic ") are pure ASCII, byte-prefix equality coincides with
  char-prefix equality, so `String.take`/`String.drop` are faithful.
* A `nil` Go slice is distinguished from an empty one with
  `Option (List String)` (the code tests `req.MediaURLs == nil` and
  `len(...)`; Go `len(nil) = 0`).
* The dynamic wire field `to` (string-or-array JSON value, Go `any`)
  is modelled by an optional `JsonValue` (`none` = Go `nil`).
* The database and the HTTP transport are collaborators: the stored
  credential, the parse result of the request body and the success of a
  database insert are passed in as parameters; persisted records and
  scheduled callbacks are returned as data.
* Real time is abstracted to millisecond offsets from the dispatch
  start `t0` (the moment the callback goroutine captures `now`).
  Time-formatted response fields (`created_at`, `valid_until`, ...)
  that no claim mentions are not modelled.
-/

namespace TelnyxMock

/-- A JSON value as it can appear in the dynamic `to` field
(Go `any` after `encoding/json` unmarshalling). -/
inductive JsonValue where
  | null
  | str (s : String)
  | num (n : Int)
  | bool (b : Bool)
  | arr (xs : List JsonValue)
  | obj

/-- Go struct `validator.MessageRequest` (the later, richer generation in
`src/unnamed/part_002`).  `To` is the memoised normalised value (json:"-",
so it is `""` on any freshly unmarshalled wire request); `ToRaw` holds the
dynamic wire value of the `to` field. -/
structure MessageRequest where
  From : String
  To : String
  ToRaw : Option JsonValue
  Text : String
  MediaURLs : Option (List String)
  MessagingProfileID : String
  WebhookURL : String
  WebhookFailoverURL : String
  UseProfileWebhooks : Option Bool

/-- `(*MessageRequest).NormalizeTo` from `src/unnamed/part_002` lines 43-67,
as a pure function (the Go method memoises the result into `m.To`, which
does not change the returned value on any later call). -/
def MessageRequest.NormalizeTo (m : MessageRequest) : String :=
  if m.To ≠ "" then m.To
  else
    match m.ToRaw with
    | none => ""
    | some (JsonValue.str s) => s
    | some (JsonValue.arr (JsonValue.str s :: _)) => s
    | some _ => ""

/-- `database.ValidateCredential` from `src/internal/database/db.go`
lines 234-255 (the richer generation): strip a `"Bearer "` prefix when the
header is strictly longer than 7, then a `"Basic "` prefix when strictly
longer than 6, and compare the resulting token with the stored key.
The stored credential is passed in (`GetCredential` collaborator). -/
def ValidateCredential (storedKey authHeader : String) : Bool :=
  let token := authHeader
  let token := if authHeader.length > 7 && (authHeader.take 7 == "Bearer ")
               then authHeader.drop 7 else token
  let token := if authHeader.length > 6 && (authHeader.take 6 == "Basic ")
               then authHeader.drop 6 else token
  token == storedKey

/-- Go struct `validator.TelnyxError`. -/
structure TelnyxError where
  Code : String
  Title : String
  Detail : String
deriving DecidableEq, Repr

/-- Go struct `validator.TelnyxErrorResponse`. -/
structure TelnyxErrorResponse where
  Errors : List TelnyxError
deriving DecidableEq, Repr

/-- Go `len` of a possibly-nil slice. -/
def goSliceLen (l : Option (List String)) : Nat :=
  match l with
  | none => 0
  | some xs => xs.length

/-- `validator.ValidateMessageRequest` from `src/unnamed/part_002`
lines 89-171.  Returns `none` for a valid request, or
`some (httpStatus, errorResponse)` for the first failing check. -/
def ValidateMessageRequest (storedKey authHeader : String) (req : MessageRequest) :
    Option (Nat × TelnyxErrorResponse) :=
  if authHeader == "" then
    some (401, ⟨[⟨"10001", "Unauthorized", "Authorization header is required."⟩]⟩)
  else if !(ValidateCredential storedKey authHeader) then
    some (401, ⟨[⟨"10001", "Unauthorized", "Invalid API key."⟩]⟩)
  else if req.From == "" then
    some (422, ⟨[⟨"10005", "Invalid parameter", "The \x27from\x27 parameter is required."⟩]⟩)
  else if req.NormalizeTo == "" then
    some (422, ⟨[⟨"10005", "Invalid parameter", "The \x27to\x27 parameter is required."⟩]⟩)
  else if req.MessagingProfileID == "" then
    some (422, ⟨[⟨"10005", "Invalid parameter", "The \x27messaging_profile_id\x27 parameter is required."⟩]⟩)
  else if req.Text == "" && (req.MediaURLs == none || goSliceLen req.MediaURLs == 0) then
    some (422, ⟨[⟨"10005", "Invalid parameter", "Either \x27text\x27 or \x27media_urls\x27 parameter is required."⟩]⟩)
  else
    none

/-- A persisted database row, as written by `database.InsertMessage`
(`src/internal/database/db.go` lines 133-154); `MediaURLs` keeps the list
whose JSON encoding (`"[]"` when empty) is stored. -/
structure Message where
  ID : String
  Sender : String
  Recipient : String
  Content : String
  MediaURLs : List String
  MessagingProfileID : String
  Direction : String
deriving DecidableEq, Repr

/-- Go struct `webhook.MessageDetails` (`src/unnamed/part_003` lines 15-25). -/
structure MessageDetails where
  ID : String
  From : String
  To : String
  Text : String
  MediaURLs : List String
  MessagingProfileID : String
  Type' : String
  WebhookURL : String
  WebhookFailoverURL : String
deriving DecidableEq, Repr

/-- The `from` object of the success response
(`handlers.go` lines 125-129). -/
structure FromLine where
  phone_number : String
  carrier : String
  line_type : String
deriving DecidableEq, Repr

/-- One element of the `to` array of the success response
(`handlers.go` lines 130-137). -/
structure ToLine where
  phone_number : String
  status : String
  carrier : String
  line_type : String
deriving DecidableEq, Repr

/-- The `data` object of the success response of `HandleCreateMessage`
(`handlers.go` lines 120-164).  Time-formatted fields (`valid_until`,
`created_at`, `updated_at`) and the constant filler fields (`encoding`,
`parts`, `tags`, `cost`, `received_at`, `sent_at`, `completed_at`) are
not modelled; no claim mentions them. -/
structure MessageData where
  id : String
  record_type : String
  direction : String
  messaging_profile_id : String
  From : FromLine
  To : List ToLine
  text : String
  media : List String
  type : String
  webhook_url : String
  webhook_failover_url : String
  use_profile_webhooks : Option Bool
deriving DecidableEq, Repr

/-- Observable outcome of one call to `server.HandleCreateMessage`:
the HTTP status and body written, the row persisted by
`database.InsertMessage` (if any), and the `webhook.MessageDetails`
handed to `webhook.SendStatusCallbacks` (if any). -/
structure CreateOutcome where
  status : Nat
  errors : Option TelnyxErrorResponse
  data : Option MessageData
  inserted : Option Message
  callback : Option MessageDetails
deriving DecidableEq, Repr

/-- `server.HandleCreateMessage` (`src/internal/server/handlers.go`
lines 27-188) for a POST request.  The transport collaborator delivers
the parse result of the body (`Except.error errMsg` when
`json.Unmarshal` fails); `messageID` is the freshly generated UUID and
`insertOk` tells whether `database.InsertMessage` succeeded. -/
def HandleCreateMessage (storedKey authHeader : String)
    (body : Except String MessageRequest) (messageID : String)
    (insertOk : Bool) : CreateOutcome :=
  match body with
  | Except.error errMsg =>
      { status := 400
        errors := some ⟨[⟨"10005", "Invalid parameter",
          "[SmsSink] Invalid JSON payload: " ++ errMsg⟩]⟩
        data := none, inserted := none, callback := none }
  | Except.ok req =>
      match ValidateMessageRequest storedKey authHeader req with
      | some (statusCode, errResp) =>
          { status := statusCode, errors := some errResp
            data := none, inserted := none, callback := none }
      | none =>
          let toVal := req.NormalizeTo
          let mediaURLs := match req.MediaURLs with
                           | none => []
                           | some l => l
          let msgType := if mediaURLs.length > 0 then "MMS" else "SMS"
          if !insertOk then
            { status := 500
              errors := some ⟨[⟨"10000", "Internal Server Error",
                "[SmsSink] Failed to save message."⟩]⟩
              data := none, inserted := none, callback := none }
          else
            let msg : Message :=
              { ID := messageID, Sender := req.From, Recipient := toVal
                Content := req.Text, MediaURLs := mediaURLs
                MessagingProfileID := req.MessagingProfileID
                Direction := "outbound" }
            let data : MessageData :=
              { id := messageID, record_type := "message"
                direction := "outbound"
                messaging_profile_id := req.MessagingProfileID
                From := { phone_number := req.From, carrier := "", line_type := "" }
                To := [{ phone_number := toVal, status := "queued",
                         carrier := "", line_type := "" }]
                text := req.Text, media := mediaURLs, type := msgType
                webhook_url := if req.WebhookURL ≠ "" then req.WebhookURL else ""
                webhook_failover_url :=
                  if req.WebhookFailoverURL ≠ "" then req.WebhookFailoverURL else ""
                use_profile_webhooks := req.UseProfileWebhooks }
            let callback : Option MessageDetails :=
              if req.WebhookURL ≠ "" then
                some { ID := messageID, From := req.From, To := toVal
                       Text := req.Text, MediaURLs := mediaURLs
                       MessagingProfileID := req.MessagingProfileID
                       Type' := msgType, WebhookURL := req.WebhookURL
                       WebhookFailoverURL := req.WebhookFailoverURL }
              else none
            { status := 200, errors := none, data := some data
              inserted := some msg, callback := callback }

/-! ## Callback dispatcher (`src/unnamed/part_003`) -/

/-- The fixed status sequence of `SendStatusCallbacks`
(`src/unnamed/part_003` lines 75-82): `(eventType, status, delay in ms)`. -/
def statuses : List (String × String × Nat) :=
  [("message.sent", "sent", 500), ("message.delivered", "delivered", 1500)]

/-- `webhook.sendWebhook` (`src/unnamed/part_003` lines 121-171), reduced to
the list of URLs to which `doWebhookRequest` is issued, in order.
`deliver url = true` models a 2xx response with no transport error.
The primary URL is always attempted; the failover URL is attempted exactly
when the primary attempt failed and a failover URL is configured (its own
outcome is only logged). -/
def sendWebhook (deliver : String → Bool) (url failoverURL : String) :
    List String :=
  if deliver url then [url]
  else if failoverURL ≠ "" then [url, failoverURL]
  else [url]

/-- One dispatched callback event, with all times as millisecond offsets
from the dispatch start `t0` (`now := time.Now().UTC()` in the goroutine). -/
structure DispatchedEvent where
  eventType : String
  status : String
  /-- the argument of the `time.Sleep` call preceding this event's dispatch -/
  sleepBefore : Nat
  /-- total suspension from `t0` when this event's delivery is attempted -/
  dispatchOffset : Nat
  /-- the `occurred_at` value of the payload: `now.Add(s.delay)` -/
  occurredAtOffset : Nat
  /-- the `sent_at` payload field, when set by the status switch -/
  sentAtOffset : Option Nat
  /-- the `completed_at` payload field, when set by the status switch -/
  completedAtOffset : Option Nat
  /-- URLs attempted by `sendWebhook` for this event, in order -/
  attempts : List String
deriving DecidableEq, Repr

/-- The `for _, s := range statuses` loop body of `SendStatusCallbacks`
(`src/unnamed/part_003` lines 84-116).  `elapsed` is the suspension
accumulated so far; each iteration first sleeps `s.delay` in full
(`time.Sleep(s.delay)`), then builds the payload with
`occurredAt := now.Add(s.delay)` and dispatches via `sendWebhook`.
`deliver i u` models the outcome of the attempt to `u` for the `i`-th
event (the delivery environment may change over time). -/
def callbackLoop (deliver : Nat → String → Bool) (url failoverURL : String) :
    List (String × String × Nat) → Nat → Nat → List DispatchedEvent
  | [], _, _ => []
  | (eventType, status, delay) :: rest, elapsed, i =>
      let elapsed' := elapsed + delay
      let occurredAt := delay
      let sentAt : Option Nat :=
        if status = "sent" then some occurredAt
        else if status = "delivered" then some 500
        else none
      let completedAt : Option Nat :=
        if status = "delivered" then some occurredAt else none
      { eventType := eventType, status := status
        sleepBefore := delay, dispatchOffset := elapsed'
        occurredAtOffset := occurredAt
        sentAtOffset := sentAt, completedAtOffset := completedAt
        attempts := sendWebhook (deliver i) url failoverURL }
        :: callbackLoop deliver url failoverURL rest elapsed' (i + 1)

/-- `webhook.SendStatusCallbacks` (`src/unnamed/part_003` lines 43-118):
no-op when `WebhookURL` is empty, otherwise the goroutine runs the status
loop from suspension 0.  The result is the sequence of dispatched events
in the order the single goroutine performs them. -/
def SendStatusCallbacks (deliver : Nat → String → Bool)
    (msg : MessageDetails) : List DispatchedEvent :=
  if msg.WebhookURL = "" then []
  else callbackLoop deliver msg.WebhookURL msg.WebhookFailoverURL statuses 0 0

/-! ## Inbound webhook handler (`src/internal/server/handlers.go`) -/

/-- The inner payload of Go struct `server.InboundWebhookPayload`
(`handlers.go` lines 277-291); zero values stand for absent JSON fields. -/
structure InboundPayload where
  ID : String
  From : String
  To : String
  Text : String
  MediaURLs : Option (List String)
  MessagingProfileID : String
  Direction : String

/-- Observable outcome of one call to `server.HandleInboundWebhook`. -/
structure InboundOutcome where
  status : Nat
  inserted : Option Message
deriving DecidableEq, Repr

/-- `server.HandleInboundWebhook` (`src/internal/server/handlers.go`
lines 294-406) for a POST request.  The transport collaborator delivers
the two parse results of the same body bytes: `envelope` is
`json.Unmarshal` into `InboundWebhookPayload` (`none` on error) and
`simple` is `json.Unmarshal` into `validator.MessageRequest`.
`genID` is the UUID generated when one is needed; `insertOk` tells
whether `database.InsertMessage` succeeded. -/
def HandleInboundWebhook (envelope : Option InboundPayload)
    (simple : Except String MessageRequest) (genID : String)
    (insertOk : Bool) : InboundOutcome :=
  match envelope with
  | some p =>
      if p.From ≠ "" then
        let messageID := if p.ID = "" then genID else p.ID
        let mediaURLs := match p.MediaURLs with
                         | none => []
                         | some l => l
        if insertOk then
          { status := 200
            inserted := some
              { ID := messageID, Sender := p.From, Recipient := p.To
                Content := p.Text, MediaURLs := mediaURLs
                MessagingProfileID := p.MessagingProfileID
                Direction := "inbound" } }
        else
          { status := 500, inserted := none }
      else
        HandleInboundWebhook.simplePath simple genID insertOk
  | none => HandleInboundWebhook.simplePath simple genID insertOk
where
  /-- The simple-format fallback (`handlers.go` lines 353-406). -/
  simplePath (simple : Except String MessageRequest) (genID : String)
      (insertOk : Bool) : InboundOutcome :=
    match simple with
    | Except.error _ => { status := 400, inserted := none }
    | Except.ok req =>
        let toVal := req.NormalizeTo
        if req.From = "" ∨ toVal = "" then
          { status := 400, inserted := none }
        else
          let mediaURLs := match req.MediaURLs with
                           | none => []
                           | some l => l
          if insertOk then
            { status := 200
              inserted := some
                { ID := genID, Sender := req.From, Recipient := toVal
                  Content := req.Text, MediaURLs := mediaURLs
                  MessagingProfileID := req.MessagingProfileID
                  Direction := "inbound" } }
          else
            { status := 500, inserted := none }

/-! ## Spec-side descriptions used by the claims -/

/-- First-failure-wins semantics over an ordered list of
`(fails, httpStatus, errorResponse)` checks, as the spec describes the
validator: the first check whose condition holds alone determines the
rejection; a request failing no check is accepted. -/
def firstFailure : List (Bool × Nat × TelnyxErrorResponse) →
    Option (Nat × TelnyxErrorResponse)
  | [] => none
  | (fails, status, resp) :: rest =>
      if fails then some (status, resp) else firstFailure rest

/-- The spec's ordered check list for the outbound-create validator
(spec 4.1): Authorization header present; stripped token equals the
stored credential; `from` non-empty; normalised `to` non-empty;
`messaging_profile_id` non-empty; `text` or non-empty `media_urls`
present — with the spec's status, code and detail for each. -/
def validationChecks (storedKey authHeader : String) (req : MessageRequest) :
    List (Bool × Nat × TelnyxErrorResponse) :=
  [ (authHeader == "", 401,
      ⟨[⟨"10001", "Unauthorized", "Authorization header is required."⟩]⟩),
    (!(ValidateCredential storedKey authHeader), 401,
      ⟨[⟨"10001", "Unauthorized", "Invalid API key."⟩]⟩),
    (req.From == "", 422,
      ⟨[⟨"10005", "Invalid parameter", "The \x27from\x27 parameter is required."⟩]⟩),
    (req.NormalizeTo == "", 422,
      ⟨[⟨"10005", "Invalid parameter", "The \x27to\x27 parameter is required."⟩]⟩),
    (req.MessagingProfileID == "", 422,
      ⟨[⟨"10005", "Invalid parameter", "The \x27messaging_profile_id\x27 parameter is required."⟩]⟩),
    (req.Text == "" && (req.MediaURLs == none || goSliceLen req.MediaURLs == 0), 422,
      ⟨[⟨"10005", "Invalid parameter", "Either \x27text\x27 or \x27media_urls\x27 parameter is required."⟩]⟩) ]

/-- C1: for every request, `ValidateMessageRequest` runs exactly the
spec's six checks in the spec's fixed order, the first failing check alone
determines the rejection (401 / code 10001 for the two auth checks,
422 / code 10005 with the matching detail for the field checks), and a
request passing all checks is accepted. -/
theorem validate_request_is_first_failing_check
    (storedKey authHeader : String) (req : MessageRequest) :
    ValidateMessageRequest storedKey authHeader req =
      firstFailure (validationChecks storedKey authHeader req) := by
  rfl

/-- The claim C6's description of a `to` wire value from which no
recipient can be extracted: `nil`, an empty array, or non-string content
(a value that is neither a string nor an array headed by a string). -/
def toRawYieldsNoValue : Option JsonValue → Bool
  | none => true
  | some (JsonValue.str _) => false
  | some (JsonValue.arr (JsonValue.str _ :: _)) => false
  | some (JsonValue.arr []) => true
  | some _ => true

/-- C6: on a wire request (memoised `To` still empty), a bare-string `to`
and a single-element-array `to` normalise to the same recipient value,
and any `to` value yielding no recipient normalises to the empty
string. -/
theorem normalize_to_string_array_agree (s : String) (base : MessageRequest)
    (hs : s ≠ "") (hTo : base.To = "") :
    ({ base with ToRaw := some (JsonValue.str s) } : MessageRequest).NormalizeTo = s ∧
    ({ base with ToRaw := some (JsonValue.arr [JsonValue.str s]) } : MessageRequest).NormalizeTo = s ∧
    (∀ r, toRawYieldsNoValue r = true →
      ({ base with ToRaw := r } : MessageRequest).NormalizeTo = "") := by
  refine ⟨?_, ?_, ?_⟩
  · simp [MessageRequest.NormalizeTo, hTo]
  · simp [MessageRequest.NormalizeTo, hTo]
  · intro r hr
    match r with
    | none => simp [MessageRequest.NormalizeTo, hTo]
    | some (JsonValue.str t) => simp [toRawYieldsNoValue] at hr
    | some (JsonValue.arr (JsonValue.str t :: rest)) => simp [toRawYieldsNoValue] at hr
    | some JsonValue.null => simp [MessageRequest.NormalizeTo, hTo]
    | some (JsonValue.num n) => simp [MessageRequest.NormalizeTo, hTo]
    | some (JsonValue.bool b) => simp [MessageRequest.NormalizeTo, hTo]
    | some JsonValue.obj => simp [MessageRequest.NormalizeTo, hTo]
    | some (JsonValue.arr []) => simp [MessageRequest.NormalizeTo, hTo]
    | some (JsonValue.arr (JsonValue.null :: rest)) => simp [MessageRequest.NormalizeTo, hTo]
    | some (JsonValue.arr (JsonValue.num n :: rest)) => simp [MessageRequest.NormalizeTo, hTo]
    | some (JsonValue.arr (JsonValue.bool b :: rest)) => simp [MessageRequest.NormalizeTo, hTo]
    | some (JsonValue.arr (JsonValue.obj :: rest)) => simp [MessageRequest.NormalizeTo, hTo]
    | some (JsonValue.arr (JsonValue.arr ys :: rest)) => simp [MessageRequest.NormalizeTo, hTo]

/-- Witness for C6 at `s = "+2"` on an otherwise empty wire request. -/
theorem normalize_to_string_array_agree_witness :
    ("+2" : String) ≠ "" ∧
    ({ From := "", To := "", ToRaw := some (JsonValue.str "+2"), Text := "",
       MediaURLs := none, MessagingProfileID := "", WebhookURL := "",
       WebhookFailoverURL := "", UseProfileWebhooks := none } : MessageRequest).NormalizeTo
      = "+2" :=
  ⟨by decide,
   (normalize_to_string_array_agree "+2"
     { From := "", To := "", ToRaw := some (JsonValue.str "+2"), Text := "",
       MediaURLs := none, MessagingProfileID := "", WebhookURL := "",
       WebhookFailoverURL := "", UseProfileWebhooks := none }
     (by decide) rfl).1⟩

/-- C10 counterexample: the claim's "whenever the stored key itself begins
with Bearer (or Basic), ... authorization fails for a header identical to
the key" is false as stated: for the stored key consisting of the bare
prefix `"Bearer "` (7 characters), the strip conditions
(`len(authHeader) > 7` resp. `> 6`) do not fire on a header equal to the
key, the raw comparison applies, and validation accepts. -/
theorem credential_prefix_equal_header_counterexample :
    ¬ ∀ key : String, (key.take 7 = "Bearer " ∨ key.take 6 = "Basic ") →
        ValidateCredential key key = false := by
  intro h
  exact absurd (h "Bearer " (Or.inl (by decide))) (by decide)

/-- C10 (amended): there is a stored API key for which a header exactly
equal to the key is rejected, and whenever the stored key strictly extends
the prefix `"Bearer "` (length > 7) or `"Basic "` (length > 6), credential
validation strips that prefix from the identical header before comparing,
so authorization fails for a header identical to the key. -/
theorem credential_prefixed_key_rejects_identical_header :
    (∃ key : String, ValidateCredential key key = false) ∧
    ∀ key : String,
      ((key.length > 7 ∧ key.take 7 = "Bearer ") ∨
       (key.length > 6 ∧ key.take 6 = "Basic ")) →
      ValidateCredential key key = false := by
  refine ⟨⟨"Bearer x", by decide⟩, ?_⟩
  intro key h
  obtain ⟨l⟩ := key
  rcases h with ⟨hlen, htake⟩ | ⟨hlen, htake⟩
  · have hlen' : l.length > 7 := hlen
    have hdata : l.take 7 = "Bearer ".data := by
      have h2 := congrArg String.data htake
      simpa using h2
    have h6 : l.take 6 = "Bearer".data := by
      have h3 : (l.take 7).take 6 = l.take 6 := by
        rw [List.take_take]
        norm_num
      rw [← h3, hdata]; rfl
    have hBasic : ((String.mk l).take 6 == "Basic ") = false := by
      rw [String.take_eq]
      show (String.mk (l.take 6) == "Basic ") = false
      rw [h6]
      decide
    have hc6 : (decide ((String.mk l).length > 6) &&
        ((String.mk l).take 6 == "Basic ")) = false := by
      rw [hBasic, Bool.and_false]
    have hc7 : (decide ((String.mk l).length > 7) &&
        ((String.mk l).take 7 == "Bearer ")) = true := by
      rw [decide_eq_true hlen, beq_iff_eq.mpr htake, Bool.and_self]
    have hneq : (String.mk l).drop 7 ≠ String.mk l := by
      rw [String.drop_eq]
      intro hEq
      have h4 := congrArg String.length hEq
      simp at h4
      omega
    simp only [ValidateCredential, hc7, hc6, Bool.false_eq_true, if_false, if_true]
    rw [beq_eq_false_iff_ne]
    exact hneq
  · have hlen' : l.length > 6 := hlen
    have hdata : l.take 6 = "Basic ".data := by
      have h2 := congrArg String.data htake
      simpa using h2
    have hBearer : ((String.mk l).take 7 == "Bearer ") = false := by
      rw [String.take_eq]
      apply beq_eq_false_iff_ne.mpr
      intro hEq
      have h2 : l.take 7 = "Bearer ".data := by
        have h5 := congrArg String.data hEq
        simpa using h5
      have h3 : (l.take 7).take 6 = l.take 6 := by
        rw [List.take_take]
        norm_num
      rw [h2, hdata] at h3
      exact absurd h3 (by decide)
    have hc7 : (decide ((String.mk l).length > 7) &&
        ((String.mk l).take 7 == "Bearer ")) = false := by
      rw [hBearer, Bool.and_false]
    have hc6 : (decide ((String.mk l).length > 6) &&
        ((String.mk l).take 6 == "Basic ")) = true := by
      rw [decide_eq_true hlen, beq_iff_eq.mpr htake, Bool.and_self]
    have hneq : (String.mk l).drop 6 ≠ String.mk l := by
      rw [String.drop_eq]
      intro hEq
      have h4 := congrArg String.length hEq
      simp at h4
      omega
    simp only [ValidateCredential, hc7, hc6, Bool.false_eq_true, if_false, if_true]
    rw [beq_eq_false_iff_ne]
    exact hneq

/-- Witness for the amended C10 at the stored key `"Bearer x"`. -/
theorem credential_prefixed_key_rejects_identical_header_witness :
    (("Bearer x" : String).length > 7 ∧ ("Bearer x" : String).take 7 = "Bearer ") ∧
    ValidateCredential "Bearer x" "Bearer x" = false :=
  ⟨by decide,
   credential_prefixed_key_rejects_identical_header.2 "Bearer x" (Or.inl (by decide))⟩

/-! ## Dispatcher lemmas and claim theorems -/

/-- `sendWebhook` always issues its first attempt to the primary URL. -/
lemma sendWebhook_head (d : String → Bool) (url fo : String) :
    (sendWebhook d url fo).head? = some url := by
  unfold sendWebhook
  split_ifs <;> rfl

/-- `sendWebhook` issues at most two attempts per event. -/
lemma sendWebhook_length_le (d : String → Bool) (url fo : String) :
    (sendWebhook d url fo).length ≤ 2 := by
  unfold sendWebhook
  split_ifs <;> simp

/-- With distinct primary and failover URLs, `sendWebhook` attempts each
URL at most once per event. -/
lemma sendWebhook_count_le (d : String → Bool) (url fo u : String)
    (hne : url ≠ fo) : (sendWebhook d url fo).count u ≤ 1 := by
  unfold sendWebhook
  split_ifs with h1 h2
  · exact List.count_le_length ..
  · by_cases h3 : url = u
    · have h4 : fo ≠ u := fun hf => hne (h3.trans hf.symm)
      simp [List.count_cons, h3, h4]
    · simp [List.count_cons, h3]
      split_ifs <;> simp
  · exact List.count_le_length ..

/-- Fixture: message details with only a primary webhook URL. -/
def msgPrimaryOnly : MessageDetails :=
  { ID := "m1", From := "+1", To := "+2", Text := "hi", MediaURLs := [],
    MessagingProfileID := "p1", Type' := "SMS",
    WebhookURL := "http://primary.example", WebhookFailoverURL := "" }

/-- Fixture: message details with no webhook URL. -/
def msgNoWebhook : MessageDetails :=
  { ID := "m0", From := "+1", To := "+2", Text := "hi", MediaURLs := [],
    MessagingProfileID := "p1", Type' := "SMS",
    WebhookURL := "", WebhookFailoverURL := "" }

/-- Fixture: message details whose failover URL equals the primary URL. -/
def msgDupFailover : MessageDetails :=
  { ID := "m2", From := "+1", To := "+2", Text := "hi", MediaURLs := [],
    MessagingProfileID := "p1", Type' := "SMS",
    WebhookURL := "http://dup.example", WebhookFailoverURL := "http://dup.example" }

/-- C2 counterexample: the claim says `message.delivered` is dispatched
after a total suspension of 1500 ms from `t0` (sleeping only the delta
between consecutive cumulative delays), but the loop executes
`time.Sleep(s.delay)` with the full listed delay before each event, so
the dispatch offsets are 500 ms and 2000 ms, not 500 ms and 1500 ms. -/
theorem callback_cumulative_delay_counterexample :
    ¬ ((SendStatusCallbacks (fun _ _ => true) msgPrimaryOnly).map
        (fun e => e.dispatchOffset) = [500, 1500]) := by
  decide

/-- C2 (amended): for every dispatched sequence, the dispatcher sleeps
each event's full listed delay (500 ms, then 1500 ms), so
`message.sent` is dispatched after a total suspension of 500 ms and
`message.delivered` after 2000 ms from `t0`, while the payload
`occurred_at` values use the listed delays as cumulative offsets
(`t0 + 500 ms` and `t0 + 1500 ms`). -/
theorem callback_sleeps_full_listed_delays (deliver : Nat → String → Bool)
    (msg : MessageDetails) (h : msg.WebhookURL ≠ "") :
    (SendStatusCallbacks deliver msg).map
        (fun e => (e.eventType, e.sleepBefore, e.dispatchOffset, e.occurredAtOffset)) =
      [("message.sent", 500, 500, 500), ("message.delivered", 1500, 2000, 1500)] := by
  unfold SendStatusCallbacks
  rw [if_neg h]
  rfl

/-- Witness for the amended C2 on a concrete message. -/
theorem callback_sleeps_full_listed_delays_witness :
    msgPrimaryOnly.WebhookURL ≠ "" ∧
    (SendStatusCallbacks (fun _ _ => true) msgPrimaryOnly).map
        (fun e => (e.eventType, e.sleepBefore, e.dispatchOffset, e.occurredAtOffset)) =
      [("message.sent", 500, 500, 500), ("message.delivered", 1500, 2000, 1500)] :=
  ⟨by decide,
   callback_sleeps_full_listed_delays (fun _ _ => true) msgPrimaryOnly (by decide)⟩

/-- C3: with a webhook URL configured, the goroutine dispatches exactly
two events per message, `message.sent` attempted strictly before
`message.delivered` (one sequential unit of concurrency, increasing
dispatch offsets), each delivered first to that URL; with an empty
webhook URL nothing is dispatched. -/
theorem callback_sequence_two_ordered_events (deliver : Nat → String → Bool)
    (msg : MessageDetails) :
    (msg.WebhookURL = "" → SendStatusCallbacks deliver msg = []) ∧
    (msg.WebhookURL ≠ "" → ∃ e1 e2, SendStatusCallbacks deliver msg = [e1, e2] ∧
      e1.eventType = "message.sent" ∧ e2.eventType = "message.delivered" ∧
      e1.dispatchOffset < e2.dispatchOffset ∧
      e1.attempts.head? = some msg.WebhookURL ∧
      e2.attempts.head? = some msg.WebhookURL) := by
  constructor
  · intro h
    simp [SendStatusCallbacks, h]
  · intro h
    unfold SendStatusCallbacks
    rw [if_neg h]
    refine ⟨_, _, rfl, rfl, rfl, by norm_num, ?_, ?_⟩
    · exact sendWebhook_head ..
    · exact sendWebhook_head ..

/-- Witness for C3: the empty-URL case on `msgNoWebhook` and the
two-event case on `msgPrimaryOnly`. -/
theorem callback_sequence_two_ordered_events_witness :
    SendStatusCallbacks (fun _ _ => true) msgNoWebhook = [] ∧
    ∃ e1 e2, SendStatusCallbacks (fun _ _ => true) msgPrimaryOnly = [e1, e2] ∧
      e1.eventType = "message.sent" ∧ e2.eventType = "message.delivered" ∧
      e1.dispatchOffset < e2.dispatchOffset ∧
      e1.attempts.head? = some msgPrimaryOnly.WebhookURL ∧
      e2.attempts.head? = some msgPrimaryOnly.WebhookURL :=
  ⟨(callback_sequence_two_ordered_events (fun _ _ => true) msgNoWebhook).1 rfl,
   (callback_sequence_two_ordered_events (fun _ _ => true) msgPrimaryOnly).2 (by decide)⟩

/-- C4 counterexample: "at most one attempt per URL per event" fails as
stated when the configured failover URL equals the primary URL: with
every delivery failing, each of the two events attempts the same URL
twice (the code only checks `webhookFailoverURL != ""`, not that it
differs from the primary). -/
theorem webhook_duplicate_failover_counterexample :
    ((SendStatusCallbacks (fun _ _ => false) msgDupFailover).map
      (fun e => e.attempts.count "http://dup.example")) = [2, 2] := by
  decide

/-- C4 (amended): per event the primary URL is attempted once, and the
failover URL is attempted once exactly when the primary attempt fails
and a failover URL is configured; both events are always dispatched
(a failed `sent` delivery does not cancel `delivered`), at most 4
outbound calls occur per message, and when the primary and failover
URLs are distinct each URL is attempted at most once per event. -/
theorem webhook_attempts_per_event_bounded (deliver : Nat → String → Bool)
    (msg : MessageDetails) (h : msg.WebhookURL ≠ "") :
    (∀ (d : String → Bool) (url fo : String),
      (d url = true → sendWebhook d url fo = [url]) ∧
      (d url = false → fo ≠ "" → sendWebhook d url fo = [url, fo]) ∧
      (d url = false → fo = "" → sendWebhook d url fo = [url])) ∧
    (SendStatusCallbacks deliver msg).length = 2 ∧
    ((SendStatusCallbacks deliver msg).map (fun e => e.attempts.length)).sum ≤ 4 ∧
    (msg.WebhookURL ≠ msg.WebhookFailoverURL →
      ∀ e ∈ SendStatusCallbacks deliver msg, ∀ u, e.attempts.count u ≤ 1) := by
  refine ⟨?_, ?_, ?_, ?_⟩
  · intro d url fo
    refine ⟨fun hd => by simp [sendWebhook, hd],
            fun hd hf => by simp [sendWebhook, hd, hf],
            fun hd hf => by simp [sendWebhook, hd, hf]⟩
  · unfold SendStatusCallbacks
    rw [if_neg h]
    rfl
  · have e : (SendStatusCallbacks deliver msg).map (fun e => e.attempts.length) =
        [(sendWebhook (deliver 0) msg.WebhookURL msg.WebhookFailoverURL).length,
         (sendWebhook (deliver 1) msg.WebhookURL msg.WebhookFailoverURL).length] := by
      unfold SendStatusCallbacks
      rw [if_neg h]
      rfl
    rw [e]
    have h0 := sendWebhook_length_le (deliver 0) msg.WebhookURL msg.WebhookFailoverURL
    have h1 := sendWebhook_length_le (deliver 1) msg.WebhookURL msg.WebhookFailoverURL
    simp only [List.sum_cons, List.sum_nil]
    omega
  · intro hne e he u
    have hmem : ∃ i, e.attempts =
        sendWebhook (deliver i) msg.WebhookURL msg.WebhookFailoverURL := by
      unfold SendStatusCallbacks at he
      rw [if_neg h] at he
      simp [callbackLoop, statuses] at he
      rcases he with he | he <;> rw [he] <;> [exact ⟨0, rfl⟩; exact ⟨1, rfl⟩]
    obtain ⟨i, hi⟩ := hmem
    rw [hi]
    exact sendWebhook_count_le _ _ _ _ hne

/-- Witness for the amended C4: all-failing deliveries on a message with
distinct primary and failover URLs. -/
theorem webhook_attempts_per_event_bounded_witness :
    msgPrimaryOnly.WebhookURL ≠ "" ∧
    (SendStatusCallbacks (fun _ _ => false) msgPrimaryOnly).length = 2 ∧
    ((SendStatusCallbacks (fun _ _ => false) msgPrimaryOnly).map
      (fun e => e.attempts.length)).sum ≤ 4 :=
  ⟨by decide,
   (webhook_attempts_per_event_bounded (fun _ _ => false) msgPrimaryOnly (by decide)).2.1,
   (webhook_attempts_per_event_bounded (fun _ _ => false) msgPrimaryOnly (by decide)).2.2.1⟩

/-! ## Handler claim theorems -/

/-- Fixture: a valid outbound create request
(`{from:"+1", to:"+2", text:"hi", messaging_profile_id:"p1"}`). -/
def reqValid : MessageRequest :=
  { From := "+1", To := "", ToRaw := some (JsonValue.str "+2"), Text := "hi",
    MediaURLs := none, MessagingProfileID := "p1", WebhookURL := "",
    WebhookFailoverURL := "", UseProfileWebhooks := none }

/-- Fixture: the same request with `from` missing. -/
def reqMissingFrom : MessageRequest :=
  { reqValid with From := "" }

/-- Fixture: the envelope parse of the JSON body
`{"data":{"payload":{"from":"+1","to":""}}}` — inner `from` non-empty,
inner `to` empty. -/
def envNoTo : InboundPayload :=
  { ID := "", From := "+1", To := "", Text := "", MediaURLs := none,
    MessagingProfileID := "", Direction := "" }

/-- Fixture: the envelope parse of the JSON body
`{"data":{"payload":{"from":"+1","to":"+2"}}}` — no text and no media. -/
def envNoContent : InboundPayload :=
  { ID := "", From := "+1", To := "+2", Text := "", MediaURLs := none,
    MessagingProfileID := "", Direction := "" }

/-- Fixture: the flat parse of a JSON body carrying none of the flat
top-level fields (all Go zero values). -/
def flatEmpty : MessageRequest :=
  { From := "", To := "", ToRaw := none, Text := "", MediaURLs := none,
    MessagingProfileID := "", WebhookURL := "", WebhookFailoverURL := "",
    UseProfileWebhooks := none }

/-- C5: every valid outbound create request (with a successful insert)
gets HTTP 200 with `direction = "outbound"`, a single-element `to` array
carrying the normalised recipient with status `"queued"`,
`from.phone_number` equal to the request's `from`, type `"MMS"` exactly
when `media_urls` is non-empty and `"SMS"` otherwise, and `media`
defaulted to the empty sequence when `media_urls` is absent. -/
theorem handle_create_success_response_shape
    (storedKey authHeader : String) (req : MessageRequest) (messageID : String)
    (hv : ValidateMessageRequest storedKey authHeader req = none) :
    (HandleCreateMessage storedKey authHeader (Except.ok req) messageID true).status = 200 ∧
    ∃ d, (HandleCreateMessage storedKey authHeader (Except.ok req) messageID true).data = some d ∧
      d.direction = "outbound" ∧
      d.To = [{ phone_number := req.NormalizeTo, status := "queued",
                carrier := "", line_type := "" }] ∧
      d.From.phone_number = req.From ∧
      d.type = (if goSliceLen req.MediaURLs > 0 then "MMS" else "SMS") ∧
      (req.MediaURLs = none → d.media = []) := by
  cases hm : req.MediaURLs with
  | none => simp [HandleCreateMessage, hv, hm, goSliceLen]
  | some l => simp [HandleCreateMessage, hv, hm, goSliceLen]

/-- Witness for C5 on the valid fixture request. -/
theorem handle_create_success_response_shape_witness :
    ValidateMessageRequest "test-token" "Bearer test-token" reqValid = none ∧
    ((HandleCreateMessage "test-token" "Bearer test-token"
        (Except.ok reqValid) "id-1" true).status = 200 ∧
     ∃ d, (HandleCreateMessage "test-token" "Bearer test-token"
        (Except.ok reqValid) "id-1" true).data = some d ∧
      d.direction = "outbound" ∧
      d.To = [{ phone_number := reqValid.NormalizeTo, status := "queued",
                carrier := "", line_type := "" }] ∧
      d.From.phone_number = reqValid.From ∧
      d.type = (if goSliceLen reqValid.MediaURLs > 0 then "MMS" else "SMS") ∧
      (reqValid.MediaURLs = none → d.media = [])) :=
  ⟨by decide,
   handle_create_success_response_shape "test-token" "Bearer test-token"
     reqValid "id-1" (by decide)⟩

/-- C8: a body that fails to parse is rejected with 400 before any
validation runs (the outcome is independent of the credentials and of
everything after parsing), nothing is persisted, and every
validation rejection of a well-formed body likewise persists nothing and
carries a status distinct from 400. -/
theorem malformed_body_rejected_before_validation
    (storedKey authHeader errMsg messageID : String) (insertOk : Bool) :
    (HandleCreateMessage storedKey authHeader (Except.error errMsg) messageID insertOk).status = 400 ∧
    (HandleCreateMessage storedKey authHeader (Except.error errMsg) messageID insertOk).inserted = none ∧
    (∀ k h id ok, HandleCreateMessage storedKey authHeader (Except.error errMsg) messageID insertOk =
       HandleCreateMessage k h (Except.error errMsg) id ok) ∧
    (∀ req c r, ValidateMessageRequest storedKey authHeader req = some (c, r) →
       (HandleCreateMessage storedKey authHeader (Except.ok req) messageID insertOk).status = c ∧
       (HandleCreateMessage storedKey authHeader (Except.ok req) messageID insertOk).inserted = none ∧
       c ≠ 400) := by
  refine ⟨rfl, rfl, fun k h id ok => rfl, ?_⟩
  intro req c r hv
  refine ⟨?_, ?_, ?_⟩
  · simp [HandleCreateMessage, hv]
  · simp [HandleCreateMessage, hv]
  · unfold ValidateMessageRequest at hv
    split_ifs at hv <;>
      first
        | (simp only [Option.some.injEq, Prod.mk.injEq] at hv
           rcases hv with ⟨hc, -⟩
           omega)
        | exact absurd hv (by simp)

/-- Witness for C8: an unparseable body under valid credentials, and a
well-formed body missing `from`. -/
theorem malformed_body_rejected_before_validation_witness :
    (HandleCreateMessage "test-token" "Bearer test-token"
      (Except.error "bad json") "id-2" true).status = 400 ∧
    (HandleCreateMessage "test-token" "Bearer test-token"
      (Except.ok reqMissingFrom) "id-2" true).inserted = none := by
  have h := malformed_body_rejected_before_validation "test-token"
    "Bearer test-token" "bad json" "id-2" true
  exact ⟨h.1,
    (h.2.2.2 reqMissingFrom 422
      ⟨[⟨"10005", "Invalid parameter", "The \x27from\x27 parameter is required."⟩]⟩
      (by decide)).2.1⟩

/-- C9: every record persisted through the outbound create path has
non-empty content or non-empty media references, while inbound ingestion
may persist a record with both empty (shown on an envelope body with
`from`/`to` set and no text or media). -/
theorem outbound_record_has_content_or_media :
    (∀ (storedKey authHeader : String) (body : Except String MessageRequest)
       (messageID : String) (insertOk : Bool) (msg : Message),
       (HandleCreateMessage storedKey authHeader body messageID insertOk).inserted = some msg →
       (msg.Content ≠ "" ∨ msg.MediaURLs ≠ [])) ∧
    ((HandleInboundWebhook (some envNoContent)
        (Except.error "unused") "gen-1" true).inserted =
      some { ID := "gen-1", Sender := "+1", Recipient := "+2", Content := "",
             MediaURLs := [], MessagingProfileID := "", Direction := "inbound" }) := by
  constructor
  · intro storedKey authHeader body messageID insertOk msg hins
    match body with
    | Except.error e => simp [HandleCreateMessage] at hins
    | Except.ok req =>
      cases hv : ValidateMessageRequest storedKey authHeader req with
      | some p => simp [HandleCreateMessage, hv] at hins
      | none =>
        cases insertOk with
        | false => simp [HandleCreateMessage, hv] at hins
        | true =>
          simp [HandleCreateMessage, hv] at hins
          unfold ValidateMessageRequest at hv
          split_ifs at hv with h1 h2 h3 h4 h5 h6
          by_cases ht : req.Text = ""
          · right
            simp [ht] at h6
            obtain ⟨hm1, hm2⟩ := h6
            match hm : req.MediaURLs with
            | none => exact absurd hm hm1
            | some l =>
              rw [hm] at hm2
              simp [goSliceLen] at hm2
              rw [← hins]
              simp [hm]
              intro hl
              rw [hl] at hm2
              simp at hm2
          · left
            rw [← hins]
            simpa using ht
  · decide

/-- Witness for C9: a valid text-only outbound create persists a record
whose content is non-empty. -/
theorem outbound_record_has_content_or_media_witness :
    (HandleCreateMessage "test-token" "Bearer test-token"
      (Except.ok reqValid) "id-3" true).inserted =
      some { ID := "id-3", Sender := "+1", Recipient := "+2", Content := "hi",
             MediaURLs := [], MessagingProfileID := "p1", Direction := "outbound" } ∧
    (("hi" : String) ≠ "" ∨ ([] : List String) ≠ []) :=
  ⟨by decide,
   outbound_record_has_content_or_media.1 "test-token" "Bearer test-token"
     (Except.ok reqValid) "id-3" true
     { ID := "id-3", Sender := "+1", Recipient := "+2", Content := "hi",
       MediaURLs := [], MessagingProfileID := "p1", Direction := "outbound" }
     (by decide)⟩

/-- C7 counterexample: the envelope parse of
`{"data":{"payload":{"from":"+1","to":""}}}` yields a non-empty `from`
but an empty `to` (and its flat parse yields an empty `from`), so the
parsed body does not yield both required fields — yet the handler
recognises the envelope by `from` alone, persists a record with an empty
recipient, and answers 200, not 400. -/
theorem inbound_envelope_empty_to_counterexample :
    (HandleInboundWebhook (some envNoTo) (Except.ok flatEmpty) "gen-2" true).status = 200 ∧
    (HandleInboundWebhook (some envNoTo) (Except.ok flatEmpty) "gen-2" true).inserted =
      some { ID := "gen-2", Sender := "+1", Recipient := "", Content := "",
             MediaURLs := [], MessagingProfileID := "", Direction := "inbound" } := by
  constructor <;> decide

/-- C7 (amended): whenever the request is not recognised as an envelope
(envelope parse fails or its inner `from` is empty) and the flat parse
does not yield both a non-empty `from` and a non-empty normalised `to`
(or itself fails), the response is 400 and no record is persisted. -/
theorem inbound_unrecognized_missing_fields_400
    (envelope : Option InboundPayload) (simple : Except String MessageRequest)
    (genID : String) (insertOk : Bool)
    (henv : envelope = none ∨ ∀ p, envelope = some p → p.From = "")
    (hsim : ∀ req, simple = Except.ok req → (req.From = "" ∨ req.NormalizeTo = "")) :
    (HandleInboundWebhook envelope simple genID insertOk).status = 400 ∧
    (HandleInboundWebhook envelope simple genID insertOk).inserted = none := by
  have hpath : HandleInboundWebhook envelope simple genID insertOk =
      HandleInboundWebhook.simplePath simple genID insertOk := by
    cases envelope with
    | none => rfl
    | some p =>
      rcases henv with h | h
      · exact absurd h (by simp)
      · have hp : p.From = "" := h p rfl
        simp [HandleInboundWebhook, hp]
  rw [hpath]
  cases simple with
  | error e => exact ⟨rfl, rfl⟩
  | ok req =>
    have hreq := hsim req rfl
    simp only [HandleInboundWebhook.simplePath]
    rw [if_pos hreq]
    exact ⟨rfl, rfl⟩

/-- Witness for the amended C7: a body that parses as neither shape with
usable fields (flat parse has empty `from` and `to`). -/
theorem inbound_unrecognized_missing_fields_400_witness :
    (HandleInboundWebhook none (Except.ok flatEmpty) "gen-3" true).status = 400 ∧
    (HandleInboundWebhook none (Except.ok flatEmpty) "gen-3" true).inserted = none :=
  inbound_unrecognized_missing_fields_400 none (Except.ok flatEmpty) "gen-3" true
    (Or.inl rfl)
    (fun req hreq => by
      injection hreq with h2
      rw [← h2]
      exact Or.inl rfl)

end TelnyxMock
